import Mathlib

/-!
Verification of the Aloa healthcare management backend.

The definitions below are a shallow embedding of the Express/Mongoose
backend: Mongoose documents become Lean structures, the document store
becomes an explicit list threaded through each handler, Mongoose `pre('save')`
hooks become explicit functions invoked on the write path, and each route
handler becomes a function from the store and request to the new store and an
HTTP-style outcome.  JavaScript `Date` values are modelled as absolute
milliseconds (`Int`) for appointments and alerts, and as calendar components
for prescriptions (whose expiry logic uses `setFullYear`).
-/

namespace Aloa

/-! ## Time arithmetic (JavaScript `Date` on an absolute-millisecond timeline) -/

def msPerMinute : Int := 60000

def msPerHour : Int := 3600000

def msPerDay : Int := 86400000

/-- `Date.prototype.getHours()` on a timestamp `t` (UTC timeline; the model
has no DST, so local time equals the fixed timeline). -/
def jsGetHours (t : Int) : Int :=
  (t % msPerDay) / msPerHour

/-- `d.setHours(h)` with a single argument: replaces the hour field, keeping
the minutes, seconds and milliseconds; JavaScript normalizes out-of-range
hour values against the day. -/
def jsSetHours (t h : Int) : Int :=
  (t - t % msPerDay) + h * msPerHour + (t % msPerDay) % msPerHour

/-- `d.setHours(h, m)` with two arguments: replaces the hour and minute
fields, keeping seconds and milliseconds. -/
def jsSetHoursMinutes (t h m : Int) : Int :=
  (t - t % msPerDay) + h * msPerHour + m * msPerMinute
    + (t % msPerDay) % msPerMinute

/-! ## String helpers: `String.prototype.includes` and the HH:MM time regex -/

/-- Character-list version of JavaScript `hay.includes(pat)`. -/
def charsContain : List Char → List Char → Bool
  | _, [] => true
  | [], _ :: _ => false
  | c :: rest, pat => pat.isPrefixOf (c :: rest) || charsContain rest pat

/-- JavaScript `s.includes(pat)`. -/
def strIncludes (s pat : String) : Bool :=
  charsContain s.toList pat.toList

/-- `s.split(':')` at the character level. -/
def splitColon : List Char → List (List Char)
  | [] => [[]]
  | c :: rest =>
    let r := splitColon rest
    if c = ':' then [] :: r
    else
      match r with
      | h :: t => (c :: h) :: t
      | [] => [[c]]

/-- `parseInt` on an all-digit segment (the only inputs that reach it, the
time field being regex-validated); non-digit input falls back to 0. -/
def digitsToNat : List Char → Nat → Nat
  | [], acc => acc
  | c :: rest, acc =>
    if c.isDigit then digitsToNat rest (acc * 10 + (c.toNat - '0'.toNat))
    else digitsToNat rest acc

/-- Hour component of the regex `^([0-1]?[0-9]|2[0-3])`. -/
def validHourChars : List Char → Bool
  | [d] => d.isDigit
  | [a, d] => ((a = '0' || a = '1') && d.isDigit)
      || (a = '2' && ('0' ≤ d && d ≤ '3'))
  | _ => false

/-- Minute component of the regex `[0-5][0-9]$`. -/
def validMinuteChars : List Char → Bool
  | [a, b] => ('0' ≤ a && a ≤ '5') && b.isDigit
  | _ => false

/-- The time-format regex `/^([0-1]?[0-9]|2[0-3]):[0-5][0-9]$/` used both by
the appointment schema and the POST route validator. -/
def isValidTime (s : String) : Bool :=
  match splitColon s.toList with
  | [h, m] => validHourChars h && validMinuteChars m
  | _ => false

/-- `time.split(':')` followed by `parseInt` on both parts, as in the
`datetime` virtual. -/
def parseTimeParts (s : String) : Int × Int :=
  match splitColon s.toList with
  | [h, m] => ((digitsToNat h 0 : Nat), (digitsToNat m 0 : Nat))
  | _ => (0, 0)

/-! ## Users -/

/-- The fields of the User document that the modelled routes read. -/
structure User where
  id : Nat
  role : String
  isActive : Bool
deriving Repr, DecidableEq

/-! ## Appointments (models/Appointment.js) -/

structure Appointment where
  id : Nat
  patient : Nat
  doctor : Nat
  date : Int
  time : String
  type : String
  status : String
  notes : Option String
  symptoms : Option String
  diagnosis : Option String
  treatment : Option String
deriving Repr, DecidableEq

def appointmentTypes : List String :=
  ["General Consultation", "Follow-up", "Specialist Consultation",
   "Emergency", "Routine Checkup", "Lab Results Review"]

def appointmentStatuses : List String :=
  ["scheduled", "completed", "cancelled", "no-show"]

/-- The `datetime` virtual: a copy of `date` with hours and minutes replaced
by the parsed `time` string. -/
def appointmentDatetime (a : Appointment) : Int :=
  let p := parseTimeParts a.time
  jsSetHoursMinutes a.date p.1 p.2

/-- The `findOne` query of the conflict-check hook: another appointment of
the same doctor, date and time with status `scheduled`, excluding the record
being saved (`_id: { $ne: this._id }`). -/
def conflictingAppointment (store : List Appointment) (a : Appointment) :
    Option Appointment :=
  store.find? (fun b =>
    b.doctor == a.doctor && b.date == a.date && b.time == a.time &&
    b.status == "scheduled" && b.id != a.id)

/-- `appointmentSchema.pre('save')`: the conflict check runs only when the
record is new or its date, time or doctor field was modified; it returns the
error message of the rejection, or `none` when the save may proceed. -/
def appointmentPreSave (store : List Appointment) (a : Appointment)
    (isNew dateModified timeModified doctorModified : Bool) : Option String :=
  if isNew || dateModified || timeModified || doctorModified then
    match conflictingAppointment store a with
    | some _ => some "Doctor is not available at this time slot"
    | none => none
  else none

/-! ## Alerts (models/Alert.js) -/

structure Alert where
  id : Nat
  user : Nat
  type : String
  title : String
  message : String
  priority : String
  isRead : Bool
  readAt : Option Int
  scheduledFor : Option Int
  expiresAt : Option Int
  relatedModel : Option String
  relatedId : Option Nat
deriving Repr, DecidableEq

/-- `alertSchema.pre('save')`: stamp `readAt` when `isRead` was modified to
true and `readAt` is still unset.  Mongoose marks a primitive path modified
only when the assigned value differs from the stored one, which is how
`isReadModified` is computed at the call sites. -/
def alertPreSave (now : Int) (isReadModified : Bool) (a : Alert) : Alert :=
  if isReadModified && a.isRead && a.readAt.isNone then
    { a with readAt := some now }
  else a

/-- `alertSchema.statics.createAppointmentReminder`. -/
def createAppointmentReminder (alertId appointmentId userId : Nat)
    (appointmentDate : Int) : Alert :=
  let reminderDate := jsSetHours appointmentDate (jsGetHours appointmentDate - 24)
  { id := alertId
    user := userId
    type := "appointment"
    title := "Appointment Reminder"
    message := "You have an appointment scheduled for tomorrow."
    priority := "medium"
    isRead := false
    readAt := none
    scheduledFor := some reminderDate
    expiresAt := some appointmentDate
    relatedModel := some "Appointment"
    relatedId := some appointmentId }

/-! ## HTTP-style outcomes -/

inductive Outcome where
  | success (code : Nat) (message : String)
  | failure (code : Nat) (message : String)
deriving Repr, DecidableEq

def Outcome.isSuccess : Outcome → Bool
  | .success _ _ => true
  | .failure _ _ => false

/-- Result of a single-resource GET: either the resource data or an error
envelope that carries no data. -/
inductive GetResult (α : Type) where
  | ok (code : Nat) (data : α)
  | err (code : Nat) (message : String)
deriving Repr, DecidableEq

/-! ## Appointment routes (routes/appointments.js) -/

/-- Server-side state touched by the appointment routes.  `nextAptId` and
`nextAlertId` model MongoDB ObjectId generation: each insert receives a
fresh, never-reused identifier. -/
structure Sys where
  appointments : List Appointment
  alerts : List Alert
  nextAptId : Nat
  nextAlertId : Nat
deriving Repr, DecidableEq

def initSys : Sys :=
  { appointments := [], alerts := [], nextAptId := 0, nextAlertId := 0 }

/-- Body of POST /api/appointments. -/
structure BookReq where
  doctor : Nat
  date : Int
  time : String
  type : String
  notes : Option String
  symptoms : Option String
deriving Repr, DecidableEq

def optLenLe (s : Option String) (n : Nat) : Bool :=
  match s with
  | some t => t.length ≤ n
  | none => true

def optIn (s : Option String) (l : List String) : Bool :=
  match s with
  | some t => l.contains t
  | none => true

/-- The express-validator chain of POST /api/appointments (time format,
appointment type enum, notes length; id and date shape checks are absorbed
by the `Nat`/`Int` representations). -/
def bookValidation (r : BookReq) : Bool :=
  isValidTime r.time && appointmentTypes.contains r.type && optLenLe r.notes 500

/-- POST /api/appointments.  `todayMidnight` is `new Date()` with
`setHours(0,0,0,0)` applied; `alertFails` injects a failure of the
`Alert.create` call (which the route logs and swallows). -/
def createAppointment (users : List User) (st : Sys) (requester : Nat)
    (r : BookReq) (todayMidnight : Int) (alertFails : Bool) : Sys × Outcome :=
  if !bookValidation r then
    (st, .failure 400 "Validation failed")
  else
    match users.find? (fun u =>
        u.id == r.doctor && u.role == "doctor" && u.isActive) with
    | none => (st, .failure 400 "Invalid or inactive doctor")
    | some _ =>
      if r.date < todayMidnight then
        (st, .failure 400 "Cannot book appointments in the past")
      else
        let apt : Appointment :=
          { id := st.nextAptId, patient := requester, doctor := r.doctor,
            date := r.date, time := r.time, type := r.type,
            status := "scheduled", notes := r.notes, symptoms := r.symptoms,
            diagnosis := none, treatment := none }
        match appointmentPreSave st.appointments apt true true true true with
        | some msg =>
          if strIncludes msg "not available" then (st, .failure 400 msg)
          else (st, .failure 500 "Server error")
        | none =>
          let st1 : Sys :=
            { st with appointments := st.appointments ++ [apt],
                      nextAptId := st.nextAptId + 1 }
          let st2 : Sys :=
            if alertFails then st1
            else
              { st1 with
                alerts := st1.alerts ++
                  [createAppointmentReminder st1.nextAlertId apt.id requester
                    (appointmentDatetime apt)],
                nextAlertId := st1.nextAlertId + 1 }
          (st2, .success 201 "Appointment booked successfully")

/-- Body of PUT /api/appointments/:id (`none` = field absent). -/
structure UpdateReq where
  status : Option String
  notes : Option String
  symptoms : Option String
  diagnosis : Option String
  treatment : Option String
deriving Repr, DecidableEq

def updateValidation (r : UpdateReq) : Bool :=
  optIn r.status appointmentStatuses && optLenLe r.notes 500 &&
  optLenLe r.diagnosis 1000 && optLenLe r.treatment 1000

/-- `if (x !== undefined) target = x`. -/
def setOpt (cur new_ : Option String) : Option String :=
  match new_ with
  | some v => some v
  | none => cur

/-- PUT /api/appointments/:id. -/
def updateAppointment (st : Sys) (user : User) (id : Nat) (r : UpdateReq) :
    Sys × Outcome :=
  if !updateValidation r then
    (st, .failure 400 "Validation failed")
  else
    match st.appointments.find? (fun a => a.id == id) with
    | none => (st, .failure 404 "Appointment not found")
    | some apt =>
      let canUpdate := user.role == "admin" || apt.patient == user.id ||
        apt.doctor == user.id
      if !canUpdate then (st, .failure 403 "Access denied")
      else
        if (match r.status with
            | some s => s == "completed"
            | none => false) && user.role == "patient" then
          (st, .failure 403 "Patients cannot mark appointments as completed")
        else
          let a1 := match r.status with
            | some s => { apt with status := s }
            | none => apt
          let a2 := { a1 with notes := setOpt a1.notes r.notes,
                              symptoms := setOpt a1.symptoms r.symptoms }
          let a3 :=
            if user.role == "doctor" || user.role == "admin" then
              { a2 with diagnosis := setOpt a2.diagnosis r.diagnosis,
                        treatment := setOpt a2.treatment r.treatment }
            else a2
          match appointmentPreSave st.appointments a3 false
              (decide (a3.date ≠ apt.date)) (decide (a3.time ≠ apt.time))
              (decide (a3.doctor ≠ apt.doctor)) with
          | some _ => (st, .failure 500 "Server error")
          | none =>
            ({ st with appointments :=
                st.appointments.map (fun b => if b.id == id then a3 else b) },
             .success 200 "Appointment updated successfully")

/-- GET /api/appointments/:id. -/
def getAppointmentById (store : List Appointment) (user : User) (id : Nat) :
    GetResult Appointment :=
  match store.find? (fun a => a.id == id) with
  | none => .err 404 "Appointment not found"
  | some apt =>
    let hasAccess := user.role == "admin" || apt.patient == user.id ||
      apt.doctor == user.id
    if !hasAccess then .err 403 "Access denied"
    else .ok 200 apt

def allTimeSlots : List String :=
  ["09:00", "09:30", "10:00", "10:30", "11:00", "11:30",
   "14:00", "14:30", "15:00", "15:30", "16:00", "16:30"]

/-- GET /api/appointments/availability/:doctorId?date=.  Returns
`(availableSlots, bookedSlots)`. -/
def availability (users : List User) (store : List Appointment)
    (doctorId : Nat) (dateQ : Option Int) :
    GetResult (List String × List String) :=
  match dateQ with
  | none => .err 400 "Date is required"
  | some date =>
    match users.find? (fun u =>
        u.id == doctorId && u.role == "doctor" && u.isActive) with
    | none => .err 404 "Doctor not found"
    | some _ =>
      let startDate := date
      let endDate := date + msPerDay
      let bookedTimes :=
        (store.filter (fun a =>
          a.doctor == doctorId && startDate ≤ a.date && a.date < endDate &&
          a.status == "scheduled")).map (fun a => a.time)
      let availableSlots :=
        allTimeSlots.filter (fun t => !bookedTimes.contains t)
      .ok 200 (availableSlots, bookedTimes)

/-! ## Alert routes (routes/alerts.js) -/

/-- PUT /api/alerts/:id/read.  `isRead` is assigned `true`; Mongoose marks
the path modified only when the stored value was `false`. -/
def markAlertRead (store : List Alert) (user : User) (id : Nat) (now : Int) :
    List Alert × Outcome :=
  match store.find? (fun a => a.id == id) with
  | none => (store, .failure 404 "Alert not found")
  | some a =>
    if a.user != user.id then (store, .failure 403 "Access denied")
    else
      let isReadModified := !a.isRead
      let a1 := { a with isRead := true }
      let a2 := alertPreSave now isReadModified a1
      (store.map (fun b => if b.id == id then a2 else b),
       .success 200 "Alert marked as read")

/-! ## Calendar dates for prescriptions (JavaScript `Date` components)

The prescription expiry logic uses `setFullYear`, so its dates are modelled
by their calendar components (as JavaScript exposes them: month 0-11,
day-of-month 1-31) plus the milliseconds elapsed within the day. -/

structure JsDate where
  year : Int
  month : Nat
  day : Nat
  msOfDay : Nat
deriving Repr, DecidableEq

def isLeapYear (y : Int) : Bool :=
  (y % 4 == 0 && y % 100 != 0) || y % 400 == 0

def daysInMonth (y : Int) (m : Nat) : Nat :=
  if m = 1 then (if isLeapYear y then 29 else 28)
  else if m = 3 ∨ m = 5 ∨ m = 8 ∨ m = 10 then 30
  else 31

/-- `d.setFullYear(y)`: replaces the year and lets JavaScript normalize a
day-of-month that overflows the month in the new year (the only possible
overflow for a valid input date is Feb 29 of a leap year rolling to Mar 1). -/
def jsSetFullYear (d : JsDate) (y : Int) : JsDate :=
  let d1 : JsDate := { d with year := y }
  if d1.day > daysInMonth d1.year d1.month then
    { year := if d1.month = 11 then d1.year + 1 else d1.year
      month := if d1.month = 11 then 0 else d1.month + 1
      day := d1.day - daysInMonth d1.year d1.month
      msOfDay := d1.msOfDay }
  else d1

/-- `d.setFullYear(d.getFullYear() + 1)` as in the prescription pre-save
hook. -/
def addOneYear (d : JsDate) : JsDate :=
  jsSetFullYear d (d.year + 1)

/-- Chronological order of `JsDate` values (`a < b` as JavaScript compares
the underlying timestamps; for valid component dates the lexicographic order
agrees with the timeline). -/
def jsDateLt (a b : JsDate) : Bool :=
  if a.year ≠ b.year then a.year < b.year
  else if a.month ≠ b.month then a.month < b.month
  else if a.day ≠ b.day then a.day < b.day
  else a.msOfDay < b.msOfDay

/-- The component ranges of a real `Date` value. -/
def validJsDate (d : JsDate) : Bool :=
  d.month < 12 && 1 ≤ d.day && d.day ≤ daysInMonth d.year d.month &&
  d.msOfDay < 86400000

/-! ## Prescriptions (models/Prescription.js, routes/prescriptions.js) -/

structure Medication where
  name : String
  dosage : String
  frequency : String
  duration : String
  instructions : Option String
deriving Repr, DecidableEq

structure Prescription where
  id : Nat
  patient : Nat
  doctor : Nat
  appointment : Option Nat
  medications : List Medication
  diagnosis : Option String
  notes : Option String
  status : String
  refillsAllowed : Int
  refillsUsed : Int
  expiryDate : Option JsDate
  isUrgent : Bool
deriving Repr, DecidableEq

def prescriptionStatuses : List String := ["active", "completed", "cancelled"]

/-- The `refillsRemaining` virtual: `Math.max(0, refillsAllowed - refillsUsed)`. -/
def refillsRemaining (p : Prescription) : Int :=
  max 0 (p.refillsAllowed - p.refillsUsed)

/-- The `isExpired` virtual: `expiryDate && new Date() > expiryDate`. -/
def prescriptionIsExpired (now : JsDate) (p : Prescription) : Bool :=
  match p.expiryDate with
  | some e => jsDateLt e now
  | none => false

/-- `prescriptionSchema.pre('save')`: default the expiry date to one year
from now, only on the first save of a record that has none. -/
def prescriptionPreSave (now : JsDate) (isNew : Bool) (p : Prescription) :
    Prescription :=
  if isNew && p.expiryDate.isNone then
    { p with expiryDate := some (addOneYear now) }
  else p

/-- Body of PUT /api/prescriptions/:id. -/
structure RxUpdateReq where
  status : Option String
  notes : Option String
  refillsAllowed : Option Int
deriving Repr, DecidableEq

def rxUpdateValidation (r : RxUpdateReq) : Bool :=
  optIn r.status prescriptionStatuses && optLenLe r.notes 1000

/-- PUT /api/prescriptions/:id. -/
def updatePrescription (store : List Prescription) (user : User) (id : Nat)
    (r : RxUpdateReq) (now : JsDate) : List Prescription × Outcome :=
  if !rxUpdateValidation r then
    (store, .failure 400 "Validation failed")
  else
    match store.find? (fun p => p.id == id) with
    | none => (store, .failure 404 "Prescription not found")
    | some p =>
      let canUpdate := user.role == "admin" || p.doctor == user.id
      if !canUpdate then (store, .failure 403 "Access denied")
      else
        let p1 := match r.status with
          | some s => { p with status := s }
          | none => p
        let p2 := { p1 with notes := setOpt p1.notes r.notes }
        let p3 := match r.refillsAllowed with
          | some n => { p2 with refillsAllowed := n }
          | none => p2
        let p4 := prescriptionPreSave now false p3
        (store.map (fun q => if q.id == id then p4 else q),
         .success 200 "Prescription updated successfully")

/-- POST /api/prescriptions/:id/refill. -/
def refillPrescription (store : List Prescription) (user : User) (id : Nat)
    (now : JsDate) : List Prescription × Outcome :=
  match store.find? (fun p => p.id == id) with
  | none => (store, .failure 404 "Prescription not found")
  | some p =>
    if p.patient != user.id then (store, .failure 403 "Access denied")
    else if p.status != "active" then
      (store, .failure 400 "Prescription is not active")
    else if prescriptionIsExpired now p then
      (store, .failure 400 "Prescription has expired")
    else if refillsRemaining p ≤ 0 then
      (store, .failure 400 "No refills remaining")
    else
      let p1 := { p with refillsUsed := p.refillsUsed + 1 }
      let p2 := prescriptionPreSave now false p1
      (store.map (fun q => if q.id == id then p2 else q),
       .success 200 "Prescription refill processed successfully")

/-- GET /api/prescriptions/:id. -/
def getPrescriptionById (store : List Prescription) (user : User) (id : Nat) :
    GetResult Prescription :=
  match store.find? (fun p => p.id == id) with
  | none => .err 404 "Prescription not found"
  | some p =>
    let hasAccess := user.role == "admin" || p.patient == user.id ||
      p.doctor == user.id
    if !hasAccess then .err 403 "Access denied"
    else .ok 200 p

/-! ## Health records (models/HealthRecord.js, routes/healthRecords.js) -/

structure HealthRecord where
  id : Nat
  patient : Nat
  doctor : Option Nat
  type : String
  title : String
deriving Repr, DecidableEq

/-- GET /api/health-records/:id (the doctor reference is optional, so the
access check guards it with an existence test). -/
def getHealthRecordById (store : List HealthRecord) (user : User) (id : Nat) :
    GetResult HealthRecord :=
  match store.find? (fun rec => rec.id == id) with
  | none => .err 404 "Health record not found"
  | some rec =>
    let hasAccess := user.role == "admin" || rec.patient == user.id ||
      (match rec.doctor with
       | some d => d == user.id
       | none => false)
    if !hasAccess then .err 403 "Access denied"
    else .ok 200 rec

/-! ## Sequences of appointment API calls -/

/-- One sequential API call against the appointment collection. -/
inductive Op where
  | book (requester : Nat) (r : BookReq) (todayMidnight : Int)
      (alertFails : Bool)
  | update (user : User) (id : Nat) (r : UpdateReq)
deriving Repr, DecidableEq

def applyOp (users : List User) (st : Sys) : Op → Sys
  | .book requester r todayMidnight alertFails =>
    (createAppointment users st requester r todayMidnight alertFails).1
  | .update u id r => (updateAppointment st u id r).1

def runOps (users : List User) (st : Sys) (ops : List Op) : Sys :=
  ops.foldl (applyOp users) st

/-- An update call that does not ask to (re)set the status to `scheduled`. -/
def noRescheduleOp : Op → Bool
  | .update _ _ r => !(r.status == some "scheduled")
  | .book _ _ _ _ => true

/-- Two appointments occupying the same scheduled slot of one doctor. -/
def slotClash (a b : Appointment) : Bool :=
  a.doctor == b.doctor && a.date == b.date && a.time == b.time &&
  a.status == "scheduled" && b.status == "scheduled"

/-- No two appointments of the store clash on a scheduled slot. -/
def conflictFree : List Appointment → Bool
  | [] => true
  | a :: t => t.all (fun b => !slotClash a b) && conflictFree t

def idsBelow (l : List Appointment) (n : Nat) : Bool :=
  l.all (fun a => a.id < n)

/-- Store well-formedness maintained by the API: fresh ids are above every
stored id, ids are pairwise distinct, and no scheduled slot is double-booked. -/
def SysInv (st : Sys) : Prop :=
  idsBelow st.appointments st.nextAptId = true ∧
  (st.appointments.map (fun a => a.id)).Nodup ∧
  conflictFree st.appointments = true

/-! ## Helper lemmas -/

/-- `setHours(getHours() - 24)` subtracts exactly 24 hours on the
millisecond timeline. -/
theorem jsSetHours_sub24 (t : Int) :
    jsSetHours t (jsGetHours t - 24) = t - 24 * msPerHour := by
  unfold jsSetHours jsGetHours msPerHour msPerDay
  omega

/-- C10: POST /appointments compares the appointment date with today's
midnight: an earlier date is rejected with a 400 client error
("Cannot book appointments in the past") and no write, while a date at or
after today's midnight (in particular any booking for the current day) is
never rejected by the past-date rule. -/
theorem past_date_booking_rejected (users : List User) (st : Sys)
    (requester : Nat) (r : BookReq) (todayMidnight : Int) (alertFails : Bool)
    (u : User)
    (hval : bookValidation r = true)
    (hdoc : users.find? (fun u =>
      u.id == r.doctor && u.role == "doctor" && u.isActive) = some u) :
    (r.date < todayMidnight →
      createAppointment users st requester r todayMidnight alertFails =
        (st, .failure 400 "Cannot book appointments in the past")) ∧
    (todayMidnight ≤ r.date →
      (createAppointment users st requester r todayMidnight alertFails).2 ≠
        .failure 400 "Cannot book appointments in the past") := by
  constructor
  · intro hpast
    unfold createAppointment
    rw [hval, hdoc]
    simp [hpast]
  · intro hfuture
    unfold createAppointment
    rw [hval, hdoc]
    have hnot : ¬ r.date < todayMidnight := not_lt.mpr hfuture
    simp only [Bool.not_true, Bool.false_eq_true, if_false, hnot, if_neg,
      not_false_eq_true]
    cases hps : appointmentPreSave st.appointments
        { id := st.nextAptId, patient := requester, doctor := r.doctor,
          date := r.date, time := r.time, type := r.type,
          status := "scheduled", notes := r.notes, symptoms := r.symptoms,
          diagnosis := none, treatment := none } true true true true with
    | none => simp
    | some msg =>
      have hmsg : msg = "Doctor is not available at this time slot" := by
        unfold appointmentPreSave at hps
        cases hc : conflictingAppointment st.appointments
            { id := st.nextAptId, patient := requester, doctor := r.doctor,
              date := r.date, time := r.time, type := r.type,
              status := "scheduled", notes := r.notes, symptoms := r.symptoms,
              diagnosis := none, treatment := none } with
        | none => rw [hc] at hps; simp at hps
        | some b => rw [hc] at hps; simp at hps; exact hps.symm
      subst hmsg
      simp [strIncludes, charsContain]

/-- Witness for C10: a booking dated one day before today's midnight is
rejected with the past-date client error and no write. -/
theorem past_date_booking_rejected_witness :
    bookValidation ⟨2, -86400000, "09:00", "General Consultation", none, none⟩
      = true ∧
    createAppointment [⟨2, "doctor", true⟩] initSys 1
      ⟨2, -86400000, "09:00", "General Consultation", none, none⟩ 0 true =
      (initSys, .failure 400 "Cannot book appointments in the past") :=
  ⟨by decide,
   (past_date_booking_rejected [⟨2, "doctor", true⟩] initSys 1
      ⟨2, -86400000, "09:00", "General Consultation", none, none⟩ 0 true
      ⟨2, "doctor", true⟩ (by decide) (by rfl)).1 (by decide)⟩

/-- C2: booking a slot in which another appointment of the same doctor,
date and time is still `scheduled` fails with the 400 conflict error and
leaves the store untouched; moreover the conflict query excludes the record
being saved itself, and the pre-save hook skips the check entirely when the
record is not new and date, time and doctor are unmodified. -/
theorem conflicting_booking_rejected (users : List User) (st : Sys)
    (requester : Nat) (r : BookReq) (todayMidnight : Int) (alertFails : Bool)
    (u : User) (b : Appointment)
    (hval : bookValidation r = true)
    (hdoc : users.find? (fun u =>
      u.id == r.doctor && u.role == "doctor" && u.isActive) = some u)
    (hdate : todayMidnight ≤ r.date)
    (hb : b ∈ st.appointments) (hbdoc : b.doctor = r.doctor)
    (hbdate : b.date = r.date) (hbtime : b.time = r.time)
    (hbstat : b.status = "scheduled") (hbid : b.id ≠ st.nextAptId) :
    (createAppointment users st requester r todayMidnight alertFails =
      (st, .failure 400 "Doctor is not available at this time slot")) ∧
    (∀ store : List Appointment, ∀ a : Appointment, ∀ dm tm dcm : Bool,
      (∀ c ∈ store, c.doctor = a.doctor → c.date = a.date → c.time = a.time →
        c.status = "scheduled" → c.id = a.id) →
      appointmentPreSave store a true dm tm dcm = none) ∧
    (∀ store : List Appointment, ∀ a : Appointment,
      appointmentPreSave store a false false false false = none) := by
  refine ⟨?_, ?_, ?_⟩
  · unfold createAppointment
    rw [hval, hdoc]
    have hnot : ¬ r.date < todayMidnight := not_lt.mpr hdate
    simp only [Bool.not_true, Bool.false_eq_true, if_false, hnot, if_neg,
      not_false_eq_true]
    have hconf : conflictingAppointment st.appointments
        { id := st.nextAptId, patient := requester, doctor := r.doctor,
          date := r.date, time := r.time, type := r.type,
          status := "scheduled", notes := r.notes, symptoms := r.symptoms,
          diagnosis := none, treatment := none } ≠ none := by
      unfold conflictingAppointment
      intro hnone
      rw [List.find?_eq_none] at hnone
      have := hnone b hb
      simp [hbdoc, hbdate, hbtime, hbstat, hbid] at this
    cases hc : conflictingAppointment st.appointments
        { id := st.nextAptId, patient := requester, doctor := r.doctor,
          date := r.date, time := r.time, type := r.type,
          status := "scheduled", notes := r.notes, symptoms := r.symptoms,
          diagnosis := none, treatment := none } with
    | none => exact absurd hc hconf
    | some c =>
      unfold appointmentPreSave
      rw [hc]
      simp [strIncludes, charsContain]
  · intro store a dm tm dcm honly
    unfold appointmentPreSave
    have hconf : conflictingAppointment store a = none := by
      unfold conflictingAppointment
      rw [List.find?_eq_none]
      intro c hc
      simp only [Bool.and_eq_true, beq_iff_eq, bne_iff_ne, ne_eq,
        Bool.not_eq_true, not_and]
      intro hcc
      obtain ⟨⟨⟨hd, hdt⟩, ht⟩, hs⟩ := hcc
      simp [honly c hc hd hdt ht hs]
    rw [hconf]
    simp
  · intro store a
    rfl

/-- Witness for C2: with one scheduled appointment for doctor 2 at date 0,
time 09:00 in the store, booking the same slot fails with the conflict
error and no write; the self-exclusion and skip-when-unmodified clauses are
instantiated as well. -/
theorem conflicting_booking_rejected_witness :
    (createAppointment [⟨3, "patient", true⟩, ⟨2, "doctor", true⟩]
      { appointments := [⟨0, 1, 2, 0, "09:00", "Follow-up", "scheduled",
          none, none, none, none⟩],
        alerts := [], nextAptId := 1, nextAlertId := 0 } 3
      ⟨2, 0, "09:00", "General Consultation", none, none⟩ 0 true =
      ({ appointments := [⟨0, 1, 2, 0, "09:00", "Follow-up", "scheduled",
          none, none, none, none⟩],
         alerts := [], nextAptId := 1, nextAlertId := 0 },
       .failure 400 "Doctor is not available at this time slot")) ∧
    appointmentPreSave
      [⟨0, 1, 2, 0, "09:00", "Follow-up", "scheduled", none, none, none, none⟩]
      ⟨0, 1, 2, 0, "09:00", "Follow-up", "scheduled", none, none, none, none⟩
      true true true true = none ∧
    appointmentPreSave
      [⟨0, 1, 2, 0, "09:00", "Follow-up", "scheduled", none, none, none, none⟩]
      ⟨5, 1, 2, 0, "09:00", "Follow-up", "scheduled", none, none, none, none⟩
      false false false false = none := by
  have h := conflicting_booking_rejected
    [⟨3, "patient", true⟩, ⟨2, "doctor", true⟩]
    { appointments := [⟨0, 1, 2, 0, "09:00", "Follow-up", "scheduled",
        none, none, none, none⟩],
      alerts := [], nextAptId := 1, nextAlertId := 0 } 3
    ⟨2, 0, "09:00", "General Consultation", none, none⟩ 0 true
    ⟨2, "doctor", true⟩
    ⟨0, 1, 2, 0, "09:00", "Follow-up", "scheduled", none, none, none, none⟩
    (by decide) (by rfl) (by decide) (by decide) (by decide) (by decide)
    (by decide) (by decide) (by decide)
  exact ⟨h.1,
    h.2.1 _ _ true true true (by decide),
    h.2.2 _ _⟩

/-- C3: a successful booking appends exactly the new appointment and exactly
one reminder alert whose `scheduledFor` is the appointment's combined
date/time minus 24 hours, whose `expiresAt` is the appointment's date/time,
with type `appointment` and the fixed title and message; if the alert
insertion fails, the appointment is still stored, no alert is stored, and
the response still reports success (201). -/
theorem booking_creates_reminder_alert (users : List User) (st : Sys)
    (requester : Nat) (r : BookReq) (todayMidnight : Int) (alertFails : Bool)
    (u : User) (apt : Appointment)
    (hval : bookValidation r = true)
    (hdoc : users.find? (fun u =>
      u.id == r.doctor && u.role == "doctor" && u.isActive) = some u)
    (hdate : todayMidnight ≤ r.date)
    (hapt : apt =
      ({ id := st.nextAptId, patient := requester, doctor := r.doctor,
         date := r.date, time := r.time, type := r.type,
         status := "scheduled", notes := r.notes, symptoms := r.symptoms,
         diagnosis := none, treatment := none } : Appointment))
    (hps : appointmentPreSave st.appointments apt true true true true = none) :
    ((createAppointment users st requester r todayMidnight alertFails).2 =
      .success 201 "Appointment booked successfully") ∧
    ((createAppointment users st requester r todayMidnight
        alertFails).1.appointments = st.appointments ++ [apt]) ∧
    (alertFails = false →
      ∃ al : Alert,
        (createAppointment users st requester r todayMidnight
          alertFails).1.alerts = st.alerts ++ [al] ∧
        al.scheduledFor = some (appointmentDatetime apt - 24 * msPerHour) ∧
        al.expiresAt = some (appointmentDatetime apt) ∧
        al.type = "appointment" ∧
        al.title = "Appointment Reminder" ∧
        al.message = "You have an appointment scheduled for tomorrow." ∧
        al.user = requester ∧
        al.relatedId = some apt.id) ∧
    (alertFails = true →
      (createAppointment users st requester r todayMidnight
        alertFails).1.alerts = st.alerts) := by
  subst hapt
  unfold createAppointment
  rw [hval, hdoc]
  have hnot : ¬ r.date < todayMidnight := not_lt.mpr hdate
  simp only [Bool.not_true, Bool.false_eq_true, if_false, hnot, if_neg,
    not_false_eq_true]
  rw [hps]
  refine ⟨?_, ?_, ?_, ?_⟩
  · cases alertFails <;> simp
  · cases alertFails <;> simp
  · intro haf
    subst haf
    refine ⟨createAppointmentReminder st.nextAlertId st.nextAptId requester
        (appointmentDatetime
          { id := st.nextAptId, patient := requester, doctor := r.doctor,
            date := r.date, time := r.time, type := r.type,
            status := "scheduled", notes := r.notes, symptoms := r.symptoms,
            diagnosis := none, treatment := none }), ?_⟩
    refine ⟨by simp, ?_, by simp [createAppointmentReminder], ?_, ?_, ?_, ?_, ?_⟩
    · show (createAppointmentReminder _ _ _ _).scheduledFor = _
      unfold createAppointmentReminder
      rw [jsSetHours_sub24]
    all_goals simp [createAppointmentReminder]
  · intro haf
    subst haf
    simp

/-- Witness for C3: a concrete booking for doctor 2 at date 86400000 ms
(day 1), time 10:30, stores the appointment and one reminder alert 24 hours
earlier. -/
theorem booking_creates_reminder_alert_witness :
    ((createAppointment [⟨2, "doctor", true⟩] initSys 1
        ⟨2, 86400000, "10:30", "Routine Checkup", none, none⟩ 0 false).2 =
      .success 201 "Appointment booked successfully") ∧
    ((createAppointment [⟨2, "doctor", true⟩] initSys 1
        ⟨2, 86400000, "10:30", "Routine Checkup", none, none⟩ 0
        false).1.appointments =
      [] ++ [⟨0, 1, 2, 86400000, "10:30", "Routine Checkup", "scheduled",
        none, none, none, none⟩]) ∧
    (∃ al : Alert,
      (createAppointment [⟨2, "doctor", true⟩] initSys 1
        ⟨2, 86400000, "10:30", "Routine Checkup", none, none⟩ 0
        false).1.alerts = [] ++ [al] ∧
      al.scheduledFor = some (appointmentDatetime
        ⟨0, 1, 2, 86400000, "10:30", "Routine Checkup", "scheduled",
          none, none, none, none⟩ - 24 * msPerHour) ∧
      al.expiresAt = some (appointmentDatetime
        ⟨0, 1, 2, 86400000, "10:30", "Routine Checkup", "scheduled",
          none, none, none, none⟩) ∧
      al.type = "appointment" ∧
      al.title = "Appointment Reminder" ∧
      al.message = "You have an appointment scheduled for tomorrow." ∧
      al.user = 1 ∧
      al.relatedId = some 0) := by
  have h := booking_creates_reminder_alert [⟨2, "doctor", true⟩] initSys 1
    ⟨2, 86400000, "10:30", "Routine Checkup", none, none⟩ 0 false
    ⟨2, "doctor", true⟩
    ⟨0, 1, 2, 86400000, "10:30", "Routine Checkup", "scheduled",
      none, none, none, none⟩
    (by decide) (by rfl) (by decide) (by rfl) (by rfl)
  exact ⟨h.1, h.2.1, h.2.2.1 rfl⟩

/-- C5: the first read-mark of an unread alert sets `isRead` to true and
stamps `readAt` with the current time; a read-mark of an already-read alert
changes nothing (in particular `readAt` keeps its first value), and even on
an unread alert an already-present `readAt` is never overwritten. -/
theorem alert_readAt_set_once (store : List Alert) (user : User) (id : Nat)
    (now : Int) (a : Alert)
    (hnodup : (store.map (fun b => b.id)).Nodup)
    (hfind : store.find? (fun b => b.id == id) = some a)
    (hown : a.user = user.id) :
    (a.isRead = false → a.readAt = none →
      markAlertRead store user id now =
        (store.map (fun b =>
          if b.id == id then { a with isRead := true, readAt := some now }
          else b),
         .success 200 "Alert marked as read")) ∧
    (a.isRead = true →
      markAlertRead store user id now =
        (store, .success 200 "Alert marked as read")) ∧
    (∀ t : Int, a.isRead = false → a.readAt = some t →
      markAlertRead store user id now =
        (store.map (fun b =>
          if b.id == id then { a with isRead := true } else b),
         .success 200 "Alert marked as read")) := by
  have hmem : a ∈ store := List.mem_of_find?_eq_some hfind
  have haid : a.id = id := by
    have := List.find?_some hfind
    simpa using this
  refine ⟨?_, ?_, ?_⟩
  · intro h1 h2
    unfold markAlertRead
    rw [hfind]
    simp [hown, alertPreSave, h1, h2]
  · intro h1
    unfold markAlertRead
    rw [hfind]
    have ha1 : { a with isRead := true } = a := by
      cases a
      simp_all
    have hbne : (a.user != user.id) = false := by simp [hown]
    have hsave : alertPreSave now (!a.isRead) { a with isRead := true } = a := by
      rw [ha1]
      simp [alertPreSave, h1]
    have hmap : ∀ b ∈ store, (if b.id == id then a else b) = b := by
      intro b hbmem
      by_cases hb : b.id = id
      · have hba : b = a :=
          List.inj_on_of_nodup_map hnodup hbmem hmem (by rw [hb, haid])
        simp [hb, hba]
      · simp [hb]
    simp only [hbne, Bool.false_eq_true, if_false, if_neg, not_false_eq_true,
      hsave, List.map_congr_left hmap, List.map_id, List.map_id']
  · intro t h1 h2
    unfold markAlertRead
    rw [hfind]
    simp [hown, alertPreSave, h1, h2]

/-- Witness for C5: marking a concrete unread alert read at time 5 sets
`readAt := some 5`; marking it read again at time 9 changes nothing, so
`readAt` keeps the value 5. -/
theorem alert_readAt_set_once_witness :
    markAlertRead
      [⟨0, 7, "system", "t", "m", "low", false, none, none, none, none, none⟩]
      ⟨7, "patient", true⟩ 0 5 =
      ([⟨0, 7, "system", "t", "m", "low", true, some 5, none, none, none,
        none⟩],
       .success 200 "Alert marked as read") ∧
    markAlertRead
      [⟨0, 7, "system", "t", "m", "low", true, some 5, none, none, none,
        none⟩]
      ⟨7, "patient", true⟩ 0 9 =
      ([⟨0, 7, "system", "t", "m", "low", true, some 5, none, none, none,
        none⟩],
       .success 200 "Alert marked as read") := by
  constructor
  · have h := (alert_readAt_set_once
      [⟨0, 7, "system", "t", "m", "low", false, none, none, none, none, none⟩]
      ⟨7, "patient", true⟩ 0 5
      ⟨0, 7, "system", "t", "m", "low", false, none, none, none, none, none⟩
      (by decide) (by rfl) (by rfl)).1 rfl rfl
    simpa using h
  · exact (alert_readAt_set_once
      [⟨0, 7, "system", "t", "m", "low", true, some 5, none, none, none,
        none⟩]
      ⟨7, "patient", true⟩ 0 9
      ⟨0, 7, "system", "t", "m", "low", true, some 5, none, none, none, none⟩
      (by decide) (by rfl) (by rfl)).2.1 rfl

/-- C7: on every single-resource GET by id (appointment, prescription,
health record), a missing resource yields 404 regardless of the caller, and
a patient who is neither the referenced patient nor the referenced doctor
receives a 403 access-denied error that carries no resource data. -/
theorem get_by_id_denies_foreign_patient :
    (∀ (store : List Appointment) (user : User) (id : Nat),
      store.find? (fun a => a.id == id) = none →
      getAppointmentById store user id = .err 404 "Appointment not found") ∧
    (∀ (store : List Appointment) (user : User) (id : Nat) (a : Appointment),
      store.find? (fun x => x.id == id) = some a →
      user.role = "patient" → user.id ≠ a.patient → user.id ≠ a.doctor →
      getAppointmentById store user id = .err 403 "Access denied") ∧
    (∀ (store : List Prescription) (user : User) (id : Nat),
      store.find? (fun p => p.id == id) = none →
      getPrescriptionById store user id = .err 404 "Prescription not found") ∧
    (∀ (store : List Prescription) (user : User) (id : Nat)
        (p : Prescription),
      store.find? (fun x => x.id == id) = some p →
      user.role = "patient" → user.id ≠ p.patient → user.id ≠ p.doctor →
      getPrescriptionById store user id = .err 403 "Access denied") ∧
    (∀ (store : List HealthRecord) (user : User) (id : Nat),
      store.find? (fun rec => rec.id == id) = none →
      getHealthRecordById store user id = .err 404 "Health record not found") ∧
    (∀ (store : List HealthRecord) (user : User) (id : Nat)
        (rec : HealthRecord),
      store.find? (fun x => x.id == id) = some rec →
      user.role = "patient" → user.id ≠ rec.patient →
      (∀ d, rec.doctor = some d → user.id ≠ d) →
      getHealthRecordById store user id = .err 403 "Access denied") := by
  refine ⟨?_, ?_, ?_, ?_, ?_, ?_⟩
  · intro store user id hfind
    unfold getAppointmentById
    rw [hfind]
  · intro store user id a hfind hrole hnp hnd
    unfold getAppointmentById
    rw [hfind]
    have h1 : (user.role == "admin") = false := by rw [hrole]; decide
    have h2 : (a.patient == user.id) = false :=
      beq_eq_false_iff_ne.mpr (Ne.symm hnp)
    have h3 : (a.doctor == user.id) = false :=
      beq_eq_false_iff_ne.mpr (Ne.symm hnd)
    simp [h1, h2, h3]
  · intro store user id hfind
    unfold getPrescriptionById
    rw [hfind]
  · intro store user id p hfind hrole hnp hnd
    unfold getPrescriptionById
    rw [hfind]
    have h1 : (user.role == "admin") = false := by rw [hrole]; decide
    have h2 : (p.patient == user.id) = false :=
      beq_eq_false_iff_ne.mpr (Ne.symm hnp)
    have h3 : (p.doctor == user.id) = false :=
      beq_eq_false_iff_ne.mpr (Ne.symm hnd)
    simp [h1, h2, h3]
  · intro store user id hfind
    unfold getHealthRecordById
    rw [hfind]
  · intro store user id rec hfind hrole hnp hnd
    unfold getHealthRecordById
    rw [hfind]
    have h1 : (user.role == "admin") = false := by rw [hrole]; decide
    have h2 : (rec.patient == user.id) = false :=
      beq_eq_false_iff_ne.mpr (Ne.symm hnp)
    have h3 : (match rec.doctor with
        | some d => d == user.id
        | none => false) = false := by
      cases hd : rec.doctor with
      | none => rfl
      | some d => simpa using Ne.symm (hnd d hd)
    simp [h1, h2, h3]

/-- Witness for C7: patient 9 requesting appointment, prescription and
health record id 0 of patient 1 / doctor 2 gets 403 with no data; a missing
id 5 gets 404. -/
theorem get_by_id_denies_foreign_patient_witness :
    getAppointmentById
      [⟨0, 1, 2, 0, "09:00", "Follow-up", "scheduled", none, none, none,
        none⟩] ⟨9, "patient", true⟩ 0 = .err 403 "Access denied" ∧
    getAppointmentById
      [⟨0, 1, 2, 0, "09:00", "Follow-up", "scheduled", none, none, none,
        none⟩] ⟨9, "patient", true⟩ 5 = .err 404 "Appointment not found" ∧
    getPrescriptionById
      [⟨0, 1, 2, none, [], none, none, "active", 0, 0, none, false⟩]
      ⟨9, "patient", true⟩ 0 = .err 403 "Access denied" ∧
    getPrescriptionById
      [⟨0, 1, 2, none, [], none, none, "active", 0, 0, none, false⟩]
      ⟨9, "patient", true⟩ 5 = .err 404 "Prescription not found" ∧
    getHealthRecordById [⟨0, 1, some 2, "lab_report", "x"⟩]
      ⟨9, "patient", true⟩ 0 = .err 403 "Access denied" ∧
    getHealthRecordById [⟨0, 1, some 2, "lab_report", "x"⟩]
      ⟨9, "patient", true⟩ 5 = .err 404 "Health record not found" := by
  have h := get_by_id_denies_foreign_patient
  refine ⟨?_, ?_, ?_, ?_, ?_, ?_⟩
  · exact h.2.1 _ ⟨9, "patient", true⟩ 0 _ (by rfl) rfl (by decide) (by decide)
  · exact h.1 _ ⟨9, "patient", true⟩ 5 (by rfl)
  · exact h.2.2.2.1 _ ⟨9, "patient", true⟩ 0 _ (by rfl) rfl (by decide)
      (by decide)
  · exact h.2.2.1 _ ⟨9, "patient", true⟩ 5 (by rfl)
  · exact h.2.2.2.2.2 _ ⟨9, "patient", true⟩ 0 _ (by rfl) rfl (by decide)
      (by intro d hd; cases hd; decide)
  · exact h.2.2.2.2.1 _ ⟨9, "patient", true⟩ 5 (by rfl)

/-- C8: for an existing active doctor and a given date, the availability
endpoint reports as booked exactly the times of that doctor's `scheduled`
appointments within the queried day, and as available exactly the fixed
twelve slots that are not among those booked times; appointments in any
other status occupy no slot. -/
theorem availability_slots (users : List User) (store : List Appointment)
    (doctorId : Nat) (date : Int) (u : User)
    (hdoc : users.find? (fun u =>
      u.id == doctorId && u.role == "doctor" && u.isActive) = some u) :
    ∃ av bk : List String,
      availability users store doctorId (some date) = .ok 200 (av, bk) ∧
      (∀ t : String, t ∈ bk ↔ ∃ a ∈ store, a.doctor = doctorId ∧
        date ≤ a.date ∧ a.date < date + msPerDay ∧ a.status = "scheduled" ∧
        a.time = t) ∧
      (∀ t : String, t ∈ av ↔ t ∈ allTimeSlots ∧ ¬ t ∈ bk) := by
  unfold availability
  simp only [hdoc]
  refine ⟨_, _, rfl, ?_, ?_⟩
  · intro t
    simp only [List.mem_map, List.mem_filter, Bool.and_eq_true,
      decide_eq_true_eq, beq_iff_eq]
    constructor
    · rintro ⟨a, ⟨hmem, ⟨⟨⟨hd, h1⟩, h2⟩, hs⟩⟩, ht⟩
      exact ⟨a, hmem, hd, h1, h2, hs, ht⟩
    · rintro ⟨a, hmem, hd, h1, h2, hs, ht⟩
      exact ⟨a, ⟨hmem, ⟨⟨⟨hd, h1⟩, h2⟩, hs⟩⟩, ht⟩
  · intro t
    simp [List.mem_filter, List.elem_iff]

/-- Witness for C8: doctor 2 has a scheduled 09:00 appointment and a
cancelled 10:00 appointment on day 0; 09:00 is booked, 10:00 is free. -/
theorem availability_slots_witness :
    ∃ av bk : List String,
      availability [⟨2, "doctor", true⟩]
        [⟨0, 1, 2, 0, "09:00", "Follow-up", "scheduled", none, none, none,
          none⟩,
         ⟨1, 1, 2, 0, "10:00", "Follow-up", "cancelled", none, none, none,
          none⟩]
        2 (some 0) = .ok 200 (av, bk) ∧
      ("09:00" ∈ bk ∧ ¬ "10:00" ∈ bk) ∧
      (¬ "09:00" ∈ av ∧ "10:00" ∈ av) := by
  obtain ⟨av, bk, heq, hbk, hav⟩ := availability_slots [⟨2, "doctor", true⟩]
    [⟨0, 1, 2, 0, "09:00", "Follow-up", "scheduled", none, none, none, none⟩,
     ⟨1, 1, 2, 0, "10:00", "Follow-up", "cancelled", none, none, none, none⟩]
    2 0 ⟨2, "doctor", true⟩ (by rfl)
  refine ⟨av, bk, heq, ⟨?_, ?_⟩, ⟨?_, ?_⟩⟩
  · exact (hbk "09:00").mpr
      ⟨⟨0, 1, 2, 0, "09:00", "Follow-up", "scheduled", none, none, none,
        none⟩, by simp, rfl, by decide, by decide, rfl, rfl⟩
  · intro hmem
    obtain ⟨a, hamem, _, _, _, hs, ht⟩ := (hbk "10:00").mp hmem
    simp only [List.mem_cons, List.mem_singleton, List.not_mem_nil] at hamem
    rcases hamem with h | h | h
    · subst h; simp at ht
    · subst h; simp at hs
    · exact h.elim
  · intro hmem
    exact ((hav "09:00").mp hmem).2 ((hbk "09:00").mpr
      ⟨⟨0, 1, 2, 0, "09:00", "Follow-up", "scheduled", none, none, none,
        none⟩, by simp, rfl, by decide, by decide, rfl, rfl⟩)
  · refine (hav "10:00").mpr ⟨by decide, ?_⟩
    intro hmem
    obtain ⟨a, hamem, _, _, _, hs, ht⟩ := (hbk "10:00").mp hmem
    simp only [List.mem_cons, List.mem_singleton, List.not_mem_nil] at hamem
    rcases hamem with h | h | h
    · subst h; simp at ht
    · subst h; simp at hs
    · exact h.elim

/-- C9: on the first save of a prescription without an expiry date, the
pre-save hook sets `expiryDate` to the creation date plus one year (same
calendar date in the next year for every date other than Feb 29); a
supplied expiry date is kept, and the hook never fires on a non-new save. -/
theorem prescription_expiry_defaulted :
    (∀ (now : JsDate) (p : Prescription), p.expiryDate = none →
      (prescriptionPreSave now true p).expiryDate = some (addOneYear now)) ∧
    (∀ now : JsDate, validJsDate now = true → ¬(now.month = 1 ∧ now.day = 29) →
      addOneYear now = { now with year := now.year + 1 }) ∧
    (∀ (now : JsDate) (p : Prescription) (e : JsDate),
      p.expiryDate = some e → prescriptionPreSave now true p = p) ∧
    (∀ (now : JsDate) (p : Prescription), prescriptionPreSave now false p = p) := by
  refine ⟨?_, ?_, ?_, ?_⟩
  · intro now p hnone
    simp [prescriptionPreSave, hnone]
  · intro now hvalid hfeb
    have hval' : now.day ≤ daysInMonth now.year now.month ∧ now.month < 12 := by
      unfold validJsDate at hvalid
      simp only [Bool.and_eq_true, decide_eq_true_eq] at hvalid
      exact ⟨hvalid.1.2, hvalid.1.1.1⟩
    have hdim : ∀ y : Int, daysInMonth y 1 =
        if isLeapYear y = true then 29 else 28 := fun _ => rfl
    have hle : now.day ≤ daysInMonth (now.year + 1) now.month := by
      by_cases hm : now.month = 1
      · have hday : now.day ≠ 29 := fun h => hfeb ⟨hm, h⟩
        have h := hval'.1
        rw [hm, hdim] at h
        rw [hm, hdim]
        split at h <;> split <;> omega
      · have hsame : daysInMonth (now.year + 1) now.month =
            daysInMonth now.year now.month := by
          unfold daysInMonth
          simp [hm]
        rw [hsame]
        exact hval'.1
    unfold addOneYear jsSetFullYear
    simp [Nat.not_lt.mpr hle]
  · intro now p e he
    simp [prescriptionPreSave, he]
  · intro now p
    simp [prescriptionPreSave]

/-- Witness for C9: a prescription created on 2024-05-15 (month index 4)
without an expiry date gets 2025-05-15; a supplied expiry date survives; a
non-new save never defaults. -/
theorem prescription_expiry_defaulted_witness :
    (prescriptionPreSave ⟨2024, 4, 15, 0⟩ true
      ⟨0, 1, 2, none, [], none, none, "active", 2, 0, none, false⟩).expiryDate
      = some (addOneYear ⟨2024, 4, 15, 0⟩) ∧
    addOneYear ⟨2024, 4, 15, 0⟩ =
      ({ year := 2025, month := 4, day := 15, msOfDay := 0 } : JsDate) ∧
    prescriptionPreSave ⟨2024, 4, 15, 0⟩ true
      ⟨0, 1, 2, none, [], none, none, "active", 2, 0, some ⟨2026, 0, 1, 0⟩,
        false⟩ =
      ⟨0, 1, 2, none, [], none, none, "active", 2, 0, some ⟨2026, 0, 1, 0⟩,
        false⟩ ∧
    prescriptionPreSave ⟨2024, 4, 15, 0⟩ false
      ⟨0, 1, 2, none, [], none, none, "active", 2, 0, none, false⟩ =
      ⟨0, 1, 2, none, [], none, none, "active", 2, 0, none, false⟩ := by
  have h := prescription_expiry_defaulted
  refine ⟨h.1 ⟨2024, 4, 15, 0⟩ _ rfl, ?_, h.2.2.1 ⟨2024, 4, 15, 0⟩ _
    ⟨2026, 0, 1, 0⟩ rfl, h.2.2.2 ⟨2024, 4, 15, 0⟩ _⟩
  have h2 := h.2.1 ⟨2024, 4, 15, 0⟩ (by decide) (by decide)
  simpa using h2

/-- C4: a refill requested by the prescription's own patient succeeds if and
only if the prescription is active, unexpired and has refills left
(`refillsUsed < refillsAllowed`); on success `refillsUsed` grows by exactly
one, on any failed precondition the store is unchanged and a 400 client
error is returned, and with the slots exhausted the error is precisely
"No refills remaining". -/
theorem refill_increments_once (store : List Prescription) (user : User)
    (id : Nat) (now : JsDate) (p : Prescription) (e : JsDate)
    (hfind : store.find? (fun q => q.id == id) = some p)
    (hown : p.patient = user.id)
    (hexp : p.expiryDate = some e) :
    ((refillPrescription store user id now).2.isSuccess = true ↔
      (p.status = "active" ∧ jsDateLt e now = false ∧
        p.refillsUsed < p.refillsAllowed)) ∧
    (p.status = "active" → jsDateLt e now = false →
      p.refillsUsed < p.refillsAllowed →
      refillPrescription store user id now =
        (store.map (fun q =>
          if q.id == id then { p with refillsUsed := p.refillsUsed + 1 }
          else q),
         .success 200 "Prescription refill processed successfully")) ∧
    (¬(p.status = "active" ∧ jsDateLt e now = false ∧
        p.refillsUsed < p.refillsAllowed) →
      (refillPrescription store user id now).1 = store ∧
      ∃ msg, (refillPrescription store user id now).2 = .failure 400 msg) ∧
    (p.status = "active" → jsDateLt e now = false →
      p.refillsAllowed ≤ p.refillsUsed →
      (refillPrescription store user id now).2 =
        .failure 400 "No refills remaining") := by
  have hbne : (p.patient != user.id) = false := by simp [hown]
  have hexp' : prescriptionIsExpired now p = jsDateLt e now := by
    unfold prescriptionIsExpired
    rw [hexp]
  have hsave : ∀ q : Prescription, prescriptionPreSave now false q = q := by
    intro q
    simp [prescriptionPreSave]
  have hsucc : p.status = "active" → jsDateLt e now = false →
      p.refillsUsed < p.refillsAllowed →
      refillPrescription store user id now =
        (store.map (fun q =>
          if q.id == id then { p with refillsUsed := p.refillsUsed + 1 }
          else q),
         .success 200 "Prescription refill processed successfully") := by
    intro h1 h2 h3
    have hr : ¬ refillsRemaining p ≤ 0 := by
      unfold refillsRemaining
      omega
    unfold refillPrescription
    rw [hfind]
    simp [hbne, hexp', hsave, h1, h2, hr]
  have hnorefill : p.status = "active" → jsDateLt e now = false →
      p.refillsAllowed ≤ p.refillsUsed →
      (refillPrescription store user id now).2 =
        .failure 400 "No refills remaining" := by
    intro h1 h2 h3
    have hr : refillsRemaining p ≤ 0 := by
      unfold refillsRemaining
      omega
    unfold refillPrescription
    rw [hfind]
    simp [hbne, hexp', h1, h2, hr]
  have hfail : ¬(p.status = "active" ∧ jsDateLt e now = false ∧
      p.refillsUsed < p.refillsAllowed) →
      (refillPrescription store user id now).1 = store ∧
      ∃ msg, (refillPrescription store user id now).2 = .failure 400 msg := by
    intro hneg
    by_cases h1 : p.status = "active"
    · by_cases h2 : jsDateLt e now = true
      · unfold refillPrescription
        rw [hfind]
        have hs1 : (p.status != "active") = false := by simp [h1]
        simp [hbne, hexp', hs1, h2]
      · have h2' : jsDateLt e now = false := by
          revert h2
          cases jsDateLt e now <;> simp
        have hused : p.refillsAllowed ≤ p.refillsUsed := by
          by_contra hlt
          exact hneg ⟨h1, h2', by omega⟩
        have hr : refillsRemaining p ≤ 0 := by
          unfold refillsRemaining
          omega
        unfold refillPrescription
        rw [hfind]
        have hs1 : (p.status != "active") = false := by simp [h1]
        simp [hbne, hexp', hs1, h2', hr]
    · unfold refillPrescription
      rw [hfind]
      have hs1 : (p.status != "active") = true := by simp [h1]
      simp [hbne, hs1]
  refine ⟨⟨?_, ?_⟩, hsucc, hfail, hnorefill⟩
  · intro hsuc
    by_contra hneg
    obtain ⟨_, msg, hmsg⟩ := hfail hneg
    rw [hmsg] at hsuc
    simp [Outcome.isSuccess] at hsuc
  · rintro ⟨h1, h2, h3⟩
    rw [hsucc h1 h2 h3]
    rfl

/-- Witness for C4 running the spec's example: with refillsAllowed = 2 and
refillsUsed = 1 a refill succeeds and refillsUsed becomes 2; a further
attempt on the resulting store returns "No refills remaining" and leaves
refillsUsed at 2. -/
theorem refill_increments_once_witness :
    refillPrescription
      [⟨0, 7, 2, none, [], none, none, "active", 2, 1, some ⟨2026, 0, 1, 0⟩,
        false⟩]
      ⟨7, "patient", true⟩ 0 ⟨2025, 0, 1, 0⟩ =
      ([⟨0, 7, 2, none, [], none, none, "active", 2, 2, some ⟨2026, 0, 1, 0⟩,
        false⟩],
       .success 200 "Prescription refill processed successfully") ∧
    (refillPrescription
      [⟨0, 7, 2, none, [], none, none, "active", 2, 2, some ⟨2026, 0, 1, 0⟩,
        false⟩]
      ⟨7, "patient", true⟩ 0 ⟨2025, 0, 1, 0⟩).1 =
      [⟨0, 7, 2, none, [], none, none, "active", 2, 2, some ⟨2026, 0, 1, 0⟩,
        false⟩] ∧
    (refillPrescription
      [⟨0, 7, 2, none, [], none, none, "active", 2, 2, some ⟨2026, 0, 1, 0⟩,
        false⟩]
      ⟨7, "patient", true⟩ 0 ⟨2025, 0, 1, 0⟩).2 =
      .failure 400 "No refills remaining" := by
  have h1 := (refill_increments_once
    [⟨0, 7, 2, none, [], none, none, "active", 2, 1, some ⟨2026, 0, 1, 0⟩,
      false⟩]
    ⟨7, "patient", true⟩ 0 ⟨2025, 0, 1, 0⟩
    ⟨0, 7, 2, none, [], none, none, "active", 2, 1, some ⟨2026, 0, 1, 0⟩,
      false⟩ ⟨2026, 0, 1, 0⟩ (by rfl) rfl rfl).2.1 rfl (by decide) (by decide)
  have h2 := refill_increments_once
    [⟨0, 7, 2, none, [], none, none, "active", 2, 2, some ⟨2026, 0, 1, 0⟩,
      false⟩]
    ⟨7, "patient", true⟩ 0 ⟨2025, 0, 1, 0⟩
    ⟨0, 7, 2, none, [], none, none, "active", 2, 2, some ⟨2026, 0, 1, 0⟩,
      false⟩ ⟨2026, 0, 1, 0⟩ (by rfl) rfl rfl
  refine ⟨by simpa using h1, ?_, h2.2.2.2 rfl (by decide) (by decide)⟩
  have h3 := (h2.2.2.1 (by
    rintro ⟨_, _, hlt⟩
    exact absurd hlt (by decide))).1
  simpa using h3

/-! ## Invariant machinery for the double-booking property -/

theorem conflictFree_append_singleton (l : List Appointment)
    (a : Appointment) :
    conflictFree (l ++ [a]) =
      (conflictFree l && l.all (fun b => !slotClash b a)) := by
  induction l with
  | nil => simp [conflictFree]
  | cons x t ih =>
    simp only [List.cons_append, conflictFree, List.append_eq,
      List.all_append, List.all_cons, List.all_nil, Bool.and_true, ih]
    cases h1 : t.all (fun b => !slotClash x b) <;>
      cases h2 : conflictFree t <;>
        cases h3 : t.all (fun b => !slotClash b a) <;>
          cases h4 : slotClash x a <;> rfl

theorem conflictFree_map (l : List Appointment) (f : Appointment → Appointment)
    (hf : ∀ x ∈ l, ∀ y ∈ l, slotClash x y = false →
      slotClash (f x) (f y) = false)
    (h : conflictFree l = true) : conflictFree (l.map f) = true := by
  induction l with
  | nil => simp [conflictFree]
  | cons x t ih =>
    rw [List.map_cons]
    simp only [conflictFree, Bool.and_eq_true, List.all_eq_true] at h ⊢
    constructor
    · intro b hb
      obtain ⟨y, hy, rfl⟩ := List.mem_map.mp hb
      have hxy : slotClash x y = false := by
        simpa using h.1 y hy
      have := hf x (List.mem_cons_self x t) y (List.mem_cons_of_mem _ hy) hxy
      simpa using this
    · exact ih
        (fun x2 hx2 y2 hy2 =>
          hf x2 (List.mem_cons_of_mem _ hx2) y2 (List.mem_cons_of_mem _ hy2))
        h.2

theorem sysInv_extend (st : Sys) (apt : Appointment) (alerts' : List Alert)
    (nid : Nat) (h : SysInv st)
    (hid : apt.id = st.nextAptId)
    (hsched : ∀ b ∈ st.appointments, slotClash b apt = false) :
    SysInv { appointments := st.appointments ++ [apt], alerts := alerts',
             nextAptId := st.nextAptId + 1, nextAlertId := nid } := by
  obtain ⟨hib, hnd, hcf⟩ := h
  unfold idsBelow at hib
  simp only [List.all_eq_true, decide_eq_true_eq] at hib
  refine ⟨?_, ?_, ?_⟩
  · unfold idsBelow
    simp only [List.all_eq_true, decide_eq_true_eq]
    intro a ha
    rcases List.mem_append.mp ha with hmem | hmem
    · exact Nat.lt_succ_of_lt (hib a hmem)
    · rw [List.mem_singleton.mp hmem, hid]
      exact Nat.lt_succ_self _
  · rw [List.map_append]
    refine List.Nodup.append hnd (by simp) ?_
    intro x hx hx2
    simp only [List.map_cons, List.map_nil, List.mem_singleton] at hx2
    obtain ⟨a, ha, haid⟩ := List.mem_map.mp hx
    have hlt := hib a ha
    omega
  · simp only [conflictFree_append_singleton, Bool.and_eq_true,
      List.all_eq_true]
    refine ⟨hcf, ?_⟩
    intro b hb
    simpa using hsched b hb

/-- Replacing the appointment found under `id` by a record `a3` that keeps
its id and slot fields (or is not `scheduled`) preserves the store
invariant. -/
theorem sysInv_replace (st : Sys) (id : Nat) (apt a3 : Appointment)
    (h : SysInv st)
    (hfd : st.appointments.find? (fun a => a.id == id) = some apt)
    (hid3 : a3.id = apt.id)
    (hdate : a3.date = apt.date) (htime : a3.time = apt.time)
    (hdoc : a3.doctor = apt.doctor)
    (hstat : a3.status = apt.status ∨ (a3.status == "scheduled") = false) :
    SysInv { st with appointments :=
      st.appointments.map (fun b => if b.id == id then a3 else b) } := by
  obtain ⟨hib, hnd, hcf⟩ := h
  have haptmem : apt ∈ st.appointments := List.mem_of_find?_eq_some hfd
  have haptid : apt.id = id := by simpa using List.find?_some hfd
  have hidf : ∀ b : Appointment,
      ((if b.id == id then a3 else b).id) = b.id := by
    intro b
    by_cases hb : b.id = id
    · simp [hb, hid3, haptid]
    · simp [hb]
  refine ⟨?_, ?_, ?_⟩
  · unfold idsBelow at hib ⊢
    simp only [List.all_eq_true, decide_eq_true_eq] at hib ⊢
    intro a ha
    obtain ⟨b, hbmem, rfl⟩ := List.mem_map.mp ha
    rw [hidf b]
    exact hib b hbmem
  · have hmaps : (st.appointments.map
        (fun b => if b.id == id then a3 else b)).map (fun a => a.id) =
        st.appointments.map (fun a => a.id) := by
      rw [List.map_map]
      apply List.map_congr_left
      intro b _
      simp only [Function.comp_apply]
      exact hidf b
    rw [hmaps]
    exact hnd
  · apply conflictFree_map _ _ ?_ hcf
    intro x hx y hy hxy
    rcases hstat with hsame | hnosched
    · have hclash1 : ∀ z, slotClash a3 z = slotClash apt z := by
        intro z
        unfold slotClash
        rw [hdate, htime, hdoc, hsame]
      have hclash2 : ∀ z, slotClash z a3 = slotClash z apt := by
        intro z
        unfold slotClash
        rw [hdate, htime, hdoc, hsame]
      by_cases hxid : x.id = id
      · have hxa : x = apt := List.inj_on_of_nodup_map hnd hx haptmem
          (by rw [hxid, haptid])
        by_cases hyid : y.id = id
        · have hya : y = apt := List.inj_on_of_nodup_map hnd hy haptmem
            (by rw [hyid, haptid])
          rw [if_pos (by simp [hxid]), if_pos (by simp [hyid]), hclash1,
            hclash2]
          rw [hxa, hya] at hxy
          exact hxy
        · rw [if_pos (by simp [hxid]), if_neg (by simp [hyid]), hclash1]
          rw [hxa] at hxy
          exact hxy
      · by_cases hyid : y.id = id
        · have hya : y = apt := List.inj_on_of_nodup_map hnd hy haptmem
            (by rw [hyid, haptid])
          rw [if_neg (by simp [hxid]), if_pos (by simp [hyid]), hclash2]
          rw [hya] at hxy
          exact hxy
        · rw [if_neg (by simp [hxid]), if_neg (by simp [hyid])]
          exact hxy
    · have hleft : ∀ z, slotClash a3 z = false := by
        intro z
        unfold slotClash
        simp [hnosched]
      have hright : ∀ z, slotClash z a3 = false := by
        intro z
        unfold slotClash
        simp [hnosched]
      by_cases hxid : x.id = id <;> by_cases hyid : y.id = id
      · rw [if_pos (by simp [hxid]), if_pos (by simp [hyid])]
        exact hleft a3
      · rw [if_pos (by simp [hxid]), if_neg (by simp [hyid])]
        exact hleft y
      · rw [if_neg (by simp [hxid]), if_pos (by simp [hyid])]
        exact hright x
      · rw [if_neg (by simp [hxid]), if_neg (by simp [hyid])]
        exact hxy

theorem createAppointment_preserves (users : List User) (st : Sys)
    (requester : Nat) (r : BookReq) (tm : Int) (af : Bool)
    (h : SysInv st) : SysInv (createAppointment users st requester r tm af).1 := by
  unfold createAppointment
  cases hv : bookValidation r with
  | false => exact h
  | true =>
    simp only [Bool.not_true, Bool.false_eq_true, if_false, if_neg,
      not_false_eq_true]
    cases hfd : users.find? (fun u =>
        u.id == r.doctor && u.role == "doctor" && u.isActive) with
    | none => exact h
    | some u =>
      by_cases hdt : r.date < tm
      · simp only [if_pos hdt]
        exact h
      · simp only [if_neg hdt]
        cases hps : appointmentPreSave st.appointments
            { id := st.nextAptId, patient := requester, doctor := r.doctor,
              date := r.date, time := r.time, type := r.type,
              status := "scheduled", notes := r.notes, symptoms := r.symptoms,
              diagnosis := none, treatment := none } true true true true with
        | some msg =>
          cases hinc : strIncludes msg "not available" <;> simp [hinc] <;>
            exact h
        | none =>
          have hconf : conflictingAppointment st.appointments
              { id := st.nextAptId, patient := requester, doctor := r.doctor,
                date := r.date, time := r.time, type := r.type,
                status := "scheduled", notes := r.notes,
                symptoms := r.symptoms, diagnosis := none,
                treatment := none } = none := by
            unfold appointmentPreSave at hps
            simp only [Bool.true_or, if_true, if_pos] at hps
            cases hc : conflictingAppointment st.appointments
                { id := st.nextAptId, patient := requester,
                  doctor := r.doctor, date := r.date, time := r.time,
                  type := r.type, status := "scheduled", notes := r.notes,
                  symptoms := r.symptoms, diagnosis := none,
                  treatment := none } with
            | none => rfl
            | some c =>
              rw [hc] at hps
              simp at hps
          have hsched : ∀ b ∈ st.appointments, slotClash b
              { id := st.nextAptId, patient := requester, doctor := r.doctor,
                date := r.date, time := r.time, type := r.type,
                status := "scheduled", notes := r.notes,
                symptoms := r.symptoms, diagnosis := none,
                treatment := none } = false := by
            intro b hb
            unfold conflictingAppointment at hconf
            have hpredf := List.find?_eq_none.mp hconf b hb
            have hbid : b.id ≠ st.nextAptId := by
              obtain ⟨hib, _, _⟩ := h
              unfold idsBelow at hib
              simp only [List.all_eq_true, decide_eq_true_eq] at hib
              have := hib b hb
              omega
            cases hsc : slotClash b
                { id := st.nextAptId, patient := requester,
                  doctor := r.doctor, date := r.date, time := r.time,
                  type := r.type, status := "scheduled", notes := r.notes,
                  symptoms := r.symptoms, diagnosis := none,
                  treatment := none } with
            | false => rfl
            | true =>
              exfalso
              apply hpredf
              unfold slotClash at hsc
              simp only [Bool.and_eq_true, beq_iff_eq] at hsc
              simp only [Bool.and_eq_true, beq_iff_eq, bne_iff_ne, ne_eq]
              exact ⟨hsc.1, hbid⟩
          cases af with
          | true =>
            refine sysInv_extend st _ st.alerts st.nextAlertId h ?_ hsched
            rfl
          | false =>
            refine sysInv_extend st _ _ (st.nextAlertId + 1) h ?_ hsched
            rfl

/-- The save step of PUT /appointments/:id (pre-save hook with the modified
flags of an update that touched none of date/time/doctor, then the in-place
replacement) preserves the store invariant. -/
theorem saveBranchInv (st : Sys) (id : Nat) (apt a3 : Appointment)
    (h : SysInv st)
    (hfd : st.appointments.find? (fun a => a.id == id) = some apt)
    (hid3 : a3.id = apt.id)
    (hdate : a3.date = apt.date) (htime : a3.time = apt.time)
    (hdoc : a3.doctor = apt.doctor)
    (hstat : a3.status = apt.status ∨ (a3.status == "scheduled") = false) :
    SysInv (((match appointmentPreSave st.appointments a3 false
          (decide (a3.date ≠ apt.date)) (decide (a3.time ≠ apt.time))
          (decide (a3.doctor ≠ apt.doctor)) with
        | some _ => (st, Outcome.failure 500 "Server error")
        | none =>
          ({ st with appointments :=
              st.appointments.map (fun b => if b.id == id then a3 else b) },
           Outcome.success 200 "Appointment updated successfully"))
        : Sys × Outcome).1) := by
  have h1 : decide (a3.date ≠ apt.date) = false := by simp [hdate]
  have h2 : decide (a3.time ≠ apt.time) = false := by simp [htime]
  have h3 : decide (a3.doctor ≠ apt.doctor) = false := by simp [hdoc]
  rw [h1, h2, h3]
  exact sysInv_replace st id apt a3 h hfd hid3 hdate htime hdoc hstat

theorem updateAppointment_preserves (st : Sys) (user : User) (id : Nat)
    (r : UpdateReq) (hnores : r.status ≠ some "scheduled") (h : SysInv st) :
    SysInv (updateAppointment st user id r).1 := by
  unfold updateAppointment
  cases hv : updateValidation r with
  | false => exact h
  | true =>
    simp only [Bool.not_true, Bool.false_eq_true, if_false, if_neg,
      not_false_eq_true]
    cases hfd : st.appointments.find? (fun a => a.id == id) with
    | none => exact h
    | some apt =>
      dsimp only
      cases hcan : (user.role == "admin" || apt.patient == user.id ||
          apt.doctor == user.id) with
      | false => exact h
      | true =>
        cases hgate : ((match r.status with
            | some s => s == "completed"
            | none => false) && user.role == "patient") with
        | true => exact h
        | false =>
          cases hrs : r.status with
          | none =>
            by_cases hrole : (user.role == "doctor" ||
                user.role == "admin") = true
            · simp only [if_pos hrole]
              refine saveBranchInv st id apt _ h hfd ?_ ?_ ?_ ?_
                (Or.inl ?_) <;> rfl
            · simp only [if_neg hrole]
              refine saveBranchInv st id apt _ h hfd ?_ ?_ ?_ ?_
                (Or.inl ?_) <;> rfl
          | some s =>
            have hsne : (s == "scheduled") = false := by
              apply beq_eq_false_iff_ne.mpr
              intro he
              exact hnores (by rw [hrs, he])
            by_cases hrole : (user.role == "doctor" ||
                user.role == "admin") = true
            · simp only [if_pos hrole]
              refine saveBranchInv st id apt _ h hfd ?_ ?_ ?_ ?_
                (Or.inr ?_)
              · rfl
              · rfl
              · rfl
              · rfl
              · exact hsne
            · simp only [if_neg hrole]
              refine saveBranchInv st id apt _ h hfd ?_ ?_ ?_ ?_
                (Or.inr ?_)
              · rfl
              · rfl
              · rfl
              · rfl
              · exact hsne

theorem runOps_preserves (users : List User) (ops : List Op) :
    ∀ st : Sys, SysInv st → ops.all noRescheduleOp = true →
      SysInv (runOps users st ops) := by
  induction ops with
  | nil =>
    intro st h _
    exact h
  | cons op rest ih =>
    intro st h hall
    simp only [List.all_cons, Bool.and_eq_true] at hall
    simp only [runOps, List.foldl_cons]
    apply ih _ ?_ hall.2
    cases op with
    | book requester r tm af =>
      exact createAppointment_preserves users st requester r tm af h
    | update u i r =>
      apply updateAppointment_preserves st u i r ?_ h
      have := hall.1
      unfold noRescheduleOp at this
      simpa using this

/-- C1 (amended): starting from the empty store, after any sequence of
sequential booking and update calls in which no update call asks to set the
status to `scheduled`, at most one appointment with a given doctor, date,
time and status `scheduled` exists.  (As stated over arbitrary updates the
claim is false: re-setting a cancelled appointment to `scheduled` bypasses
the conflict check, see the counterexample.) -/
theorem scheduled_slot_unique_without_reschedule (users : List User)
    (ops : List Op) (h : ops.all noRescheduleOp = true) :
    conflictFree (runOps users initSys ops).appointments = true :=
  (runOps_preserves users ops initSys ⟨rfl, List.nodup_nil, rfl⟩ h).2.2

/-- Witness for the amended C1: a book / cancel-via-update / rebook sequence
satisfies the no-reschedule condition and ends conflict-free. -/
theorem scheduled_slot_unique_without_reschedule_witness :
    ([Op.book 1 ⟨2, 0, "09:00", "General Consultation", none, none⟩ 0 true,
      Op.update ⟨1, "patient", true⟩ 0
        ⟨some "cancelled", none, none, none, none⟩,
      Op.book 1 ⟨2, 0, "09:00", "General Consultation", none, none⟩ 0
        true].all noRescheduleOp = true) ∧
    conflictFree (runOps [⟨1, "patient", true⟩, ⟨2, "doctor", true⟩] initSys
      [Op.book 1 ⟨2, 0, "09:00", "General Consultation", none, none⟩ 0 true,
       Op.update ⟨1, "patient", true⟩ 0
         ⟨some "cancelled", none, none, none, none⟩,
       Op.book 1 ⟨2, 0, "09:00", "General Consultation", none, none⟩ 0
         true]).appointments = true :=
  ⟨by decide,
   scheduled_slot_unique_without_reschedule
     [⟨1, "patient", true⟩, ⟨2, "doctor", true⟩]
     [Op.book 1 ⟨2, 0, "09:00", "General Consultation", none, none⟩ 0 true,
      Op.update ⟨1, "patient", true⟩ 0
        ⟨some "cancelled", none, none, none, none⟩,
      Op.book 1 ⟨2, 0, "09:00", "General Consultation", none, none⟩ 0 true]
     (by decide)⟩

/-- Counterexample to C1 as stated: book the 09:00 slot of doctor 2, cancel
it through an update, book the slot again, then set the first appointment's
status back to `scheduled` through another update.  The conflict check is
skipped (the record is not new and date/time/doctor are unmodified), so the
final store holds two `scheduled` appointments for doctor 2 at date 0,
time 09:00. -/
theorem scheduled_slot_unique_counterexample :
    ((runOps [⟨1, "patient", true⟩, ⟨2, "doctor", true⟩] initSys
      [Op.book 1 ⟨2, 0, "09:00", "General Consultation", none, none⟩ 0 true,
       Op.update ⟨1, "patient", true⟩ 0
         ⟨some "cancelled", none, none, none, none⟩,
       Op.book 1 ⟨2, 0, "09:00", "General Consultation", none, none⟩ 0 true,
       Op.update ⟨1, "patient", true⟩ 0
         ⟨some "scheduled", none, none, none, none⟩]).appointments.countP
      (fun a => a.doctor == 2 && a.date == 0 && a.time == "09:00" &&
        a.status == "scheduled")) = 2 := by
  decide

/-- Counterexample to C6 as stated: an appointment whose status is the
terminal `completed` is moved back to the initial `scheduled` state by a
single authorized update call, which succeeds — the status graphs are not
terminal-once-left. -/
theorem status_terminal_counterexample :
    updateAppointment
      { appointments := [⟨0, 1, 2, 0, "09:00", "Follow-up", "completed",
          none, none, none, none⟩],
        alerts := [], nextAptId := 1, nextAlertId := 0 }
      ⟨2, "doctor", true⟩ 0 ⟨some "scheduled", none, none, none, none⟩ =
      ({ appointments := [⟨0, 1, 2, 0, "09:00", "Follow-up", "scheduled",
          none, none, none, none⟩],
         alerts := [], nextAptId := 1, nextAlertId := 0 },
       .success 200 "Appointment updated successfully") := by
  decide

/-- C6 (amended): the update endpoints do not enforce the status graphs —
any enum status can be written at any time, including back to the initial
state — but the role gating holds: an appointment update by a patient that
asks for status `completed` never succeeds and never changes the store, and
a patient who is not the prescribing doctor cannot update a prescription at
all. -/
theorem status_update_role_gate :
    (∀ (st : Sys) (user : User) (id : Nat) (r : UpdateReq),
      user.role = "patient" → r.status = some "completed" →
      (updateAppointment st user id r).1 = st ∧
      (updateAppointment st user id r).2.isSuccess = false) ∧
    (∀ (store : List Prescription) (user : User) (id : Nat) (r : RxUpdateReq)
        (now : JsDate),
      user.role = "patient" → (∀ p ∈ store, p.doctor ≠ user.id) →
      (updatePrescription store user id r now).1 = store ∧
      (updatePrescription store user id r now).2.isSuccess = false) := by
  constructor
  · intro st user id r hrole hst
    unfold updateAppointment
    cases hv : updateValidation r with
    | false => exact ⟨rfl, rfl⟩
    | true =>
      cases hfd : st.appointments.find? (fun a => a.id == id) with
      | none => exact ⟨rfl, rfl⟩
      | some apt =>
        dsimp only
        cases hcan : (user.role == "admin" || apt.patient == user.id ||
            apt.doctor == user.id) with
        | false => exact ⟨rfl, rfl⟩
        | true =>
          have hgate : ((match r.status with
              | some s => s == "completed"
              | none => false) && user.role == "patient") = true := by
            rw [hst, hrole]
            rfl
          rw [hgate]
          exact ⟨rfl, rfl⟩
  · intro store user id r now hrole hdocs
    unfold updatePrescription
    cases hv : rxUpdateValidation r with
    | false => exact ⟨rfl, rfl⟩
    | true =>
      cases hfd : store.find? (fun p => p.id == id) with
      | none => exact ⟨rfl, rfl⟩
      | some p =>
        dsimp only
        have hpmem : p ∈ store := List.mem_of_find?_eq_some hfd
        have hcan : (user.role == "admin" || p.doctor == user.id) = false := by
          rw [hrole]
          simp [hdocs p hpmem]
        rw [hcan]
        exact ⟨rfl, rfl⟩

/-- Witness for the amended C6: patient 1 trying to complete their own
scheduled appointment is refused with no store change, and patient 7 cannot
update their own prescription. -/
theorem status_update_role_gate_witness :
    ((updateAppointment
      { appointments := [⟨0, 1, 2, 0, "09:00", "Follow-up", "scheduled",
          none, none, none, none⟩],
        alerts := [], nextAptId := 1, nextAlertId := 0 }
      ⟨1, "patient", true⟩ 0
      ⟨some "completed", none, none, none, none⟩).1 =
      { appointments := [⟨0, 1, 2, 0, "09:00", "Follow-up", "scheduled",
          none, none, none, none⟩],
        alerts := [], nextAptId := 1, nextAlertId := 0 } ∧
     (updateAppointment
      { appointments := [⟨0, 1, 2, 0, "09:00", "Follow-up", "scheduled",
          none, none, none, none⟩],
        alerts := [], nextAptId := 1, nextAlertId := 0 }
      ⟨1, "patient", true⟩ 0
      ⟨some "completed", none, none, none, none⟩).2.isSuccess = false) ∧
    ((updatePrescription
      [⟨0, 7, 2, none, [], none, none, "active", 2, 0, none, false⟩]
      ⟨7, "patient", true⟩ 0 ⟨some "completed", none, none⟩
      ⟨2025, 0, 1, 0⟩).1 =
      [⟨0, 7, 2, none, [], none, none, "active", 2, 0, none, false⟩] ∧
     (updatePrescription
      [⟨0, 7, 2, none, [], none, none, "active", 2, 0, none, false⟩]
      ⟨7, "patient", true⟩ 0 ⟨some "completed", none, none⟩
      ⟨2025, 0, 1, 0⟩).2.isSuccess = false) :=
  ⟨status_update_role_gate.1 _ ⟨1, "patient", true⟩ 0
    ⟨some "completed", none, none, none, none⟩ rfl rfl,
   status_update_role_gate.2 _ ⟨7, "patient", true⟩ 0
    ⟨some "completed", none, none⟩ ⟨2025, 0, 1, 0⟩ rfl
    (by intro p hp; simp at hp; rw [hp]; decide)⟩

end Aloa
